import Mathlib

/-!
Verification development for the analyst-scenario builder library.

The source (src/index.js) builds declarative scenario-modification
documents. Numbers are modelled as exact rationals (JS numbers carry
exact values on the small inputs used for witnesses, and the algebraic
claims are stated over the exact arithmetic). The external collaborators
(turf-distance, polyline) are out of scope per the spec: the distance
function is a parameter of every theorem, and the polyline encoding step
is modelled as the coordinate swap the source applies immediately before
encoding (the encoder itself never affects any claim).

The JS `while (accumulator > nextStop)` loop is embedded with an explicit
fuel parameter; `none` models a computation that does not complete within
the given fuel (the loop really is non-terminating for spacing ≤ 0).
-/

/-- A WGS84 coordinate, stored (longitude, latitude) as in the source. -/
abbrev Coord := ℚ × ℚ

/-- The TimeWindow builder state (class TimeWindow): `_mon` .. `_sun`,
`_start`, `_end`, `_headway`, `_dwell`, `_speed`. -/
structure TimeWindow where
  mon : Bool
  tue : Bool
  wed : Bool
  thurs : Bool
  fri : Bool
  sat : Bool
  sun : Bool
  startSec : ℚ
  endSec : ℚ
  headway : ℚ
  dwell : ℚ
  speed : ℚ
deriving DecidableEq

/-- The TimeWindow constructor: all days true, window 0 .. 24*3600-1,
headway 10*60, dwell 0, speed 15. -/
def TimeWindow.new : TimeWindow :=
  { mon := true, tue := true, wed := true, thurs := true, fri := true
    sat := true, sun := true
    startSec := 0, endSec := 24 * 3600 - 1
    headway := 10 * 60, dwell := 0, speed := 15 }

/-- A value thrown by a JS `throw` statement, keeping track of its class.
The source only ever executes `throw "..."`, which throws a string
primitive, modelled by `jsString`. The `rangeError` constructor is the
spec-side comparison point: the spec mandates a `RangeError` object, and
this constructor exists solely so that mandate can be stated and compared
against what the source actually throws; no definition translated from
the source ever constructs it. -/
inductive Thrown where
  | jsString : String → Thrown
  | rangeError : String → Thrown
deriving DecidableEq

/-- Whether a thrown value is a `RangeError` object (spec-side predicate;
a thrown string primitive is not a `RangeError`). -/
def Thrown.isRangeError : Thrown → Bool
  | Thrown.rangeError _ => true
  | Thrown.jsString _ => false

/-- The string literal thrown by the `startTime` setter in the source. -/
def startTimeMsg : String :=
  "Start time must be between zero and 24 * 3600. It is expressed in seconds since GTFS midnight."

/-- The string literal thrown by the `endTime` setter in the source
(which reuses the start-time wording verbatim). -/
def endTimeMsg : String :=
  "Start time must be between zero and 48 * 3600. It is expressed in seconds since GTFS midnight."

/-- The `startTime(startTime)` setter. The JS method executes
`throw "Start time must be ..."` — throwing a string primitive and
leaving the object untouched — when the argument is below 0 or above
24*3600, else assigns `_start`. The pair returned is (object state after
the call, thrown value if any). -/
def TimeWindow.startTimeCall (w : TimeWindow) (v : ℚ) : TimeWindow × Option Thrown :=
  if v < 0 ∨ v > 24 * 3600 then
    (w, some (Thrown.jsString startTimeMsg))
  else
    ({ w with startSec := v }, none)

/-- The `endTime(endTime)` setter: bound 48*3600, again throwing a
string primitive on an out-of-range argument. -/
def TimeWindow.endTimeCall (w : TimeWindow) (v : ℚ) : TimeWindow × Option Thrown :=
  if v < 0 ∨ v > 48 * 3600 then
    (w, some (Thrown.jsString endTimeMsg))
  else
    ({ w with endSec := v }, none)

/-- The `startTime()` getter (no-argument call): returns `_start`. -/
def TimeWindow.startTimeGet (w : TimeWindow) : ℚ := w.startSec

/-- The `endTime()` getter (no-argument call): returns `_end`. -/
def TimeWindow.endTimeGet (w : TimeWindow) : ℚ := w.endSec

/-- One timetable record produced inside `TripPattern.make()`. -/
structure Timetable where
  startTime : ℚ
  endTime : ℚ
  headwaySecs : ℚ
  frequency : Bool
  dwellTimes : List ℚ
  hopTimes : List ℚ
  days : List Bool
deriving DecidableEq

/-- The document produced by `TripPattern.make()`. The `geometry` field
holds the (lat, lon)-swapped coordinate list that the source hands to the
external polyline encoder. -/
structure AddTripPatternDoc where
  type : String
  name : String
  stops : List Bool
  timetables : List Timetable
  geometry : List Coord
deriving DecidableEq

/-- The TripPattern builder state: `_geometry` (its coordinate list),
`_spacing`, `_windows`, `_name`, `_reversed`. -/
structure TripPattern where
  geometry : List Coord
  spacing : ℚ
  windows : List TimeWindow
  name : String
  reversed : Bool
deriving DecidableEq

/-- The TripPattern constructor (geometry and spacing start unset; the
unset geometry is modelled as the empty list, on which `make()` cannot
produce a document, matching the runtime failure of the source). -/
def TripPattern.new : TripPattern :=
  { geometry := [], spacing := 0, windows := [], name := "New trip pattern", reversed := false }

/-- The `reverse()` method: toggles `_reversed` and returns the builder. -/
def TripPattern.reverse (tp : TripPattern) : TripPattern :=
  { tp with reversed := !tp.reversed }

/-- Return value of the `name(name)` method: the setter branch returns
`this`; the getter branch executes `return name`, i.e. returns the
(undefined) parameter rather than `this._name`. -/
inductive NameRet where
  | self : NameRet
  | value : Option String → NameRet
deriving DecidableEq

/-- The `name(name)` method: with an argument it assigns `_name` and
returns the builder; with no argument it returns the parameter `name`
itself, which is undefined (`NameRet.value none`), mirroring `return name` in the source. -/
def TripPattern.nameCall (tp : TripPattern) (arg : Option String) : TripPattern × NameRet :=
  match arg with
  | some n => ({ tp with name := n }, NameRet.self)
  | none => (tp, NameRet.value none)

/-- The `addTimeWindow(timeWindow)` method. -/
def TripPattern.addTimeWindow (tp : TripPattern) (w : TimeWindow) : TripPattern :=
  { tp with windows := tp.windows ++ [w] }

/-- The mutable locals of the discretization phase of `make()`: `accumulator`,
`nextStop`, `stopIndices`, `nStops`, `hops`, and `newGeometry.coordinates`. -/
structure DiscState where
  accumulator : ℚ
  nextStop : ℚ
  stopIndices : List Bool
  nStops : ℕ
  hops : List ℚ
  newCoords : List Coord
deriving DecidableEq

/-- The `while (accumulator > nextStop)` loop body of `make()`, with an
explicit fuel bound; `none` means the loop did not exit within the fuel
(for spacing ≤ 0 it indeed never exits). Each iteration interpolates a
stop coordinate along the segment from `a` to `b` of length `segLen`,
pushes a true stop marker and a hop of one spacing, and advances
`nextStop` by the spacing in kilometers. -/
def whileLoop (sp : ℚ) (a b : Coord) (segLen : ℚ) : ℕ → DiscState → Option DiscState
  | 0, s => if s.accumulator > s.nextStop then none else some s
  | fuel + 1, s =>
    if s.accumulator > s.nextStop then
      let frac := (segLen - (s.accumulator - s.nextStop)) / segLen
      whileLoop sp a b segLen fuel
        { accumulator := s.accumulator
          nextStop := s.nextStop + sp / 1000
          stopIndices := s.stopIndices ++ [true]
          nStops := s.nStops + 1
          hops := s.hops ++ [sp]
          newCoords := s.newCoords ++ [(a.1 + (b.1 - a.1) * frac, a.2 + (b.2 - a.2) * frac)] }
    else some s

/-- The `for (let i = 1; i < coordinates.length; i++)` loop of `make()`:
for each segment add its length to the accumulator, run the inner while
loop, then append the terminal vertex of the segment, marking it a stop only
when it is the final vertex (`i == length - 1`, i.e. `rest.isEmpty`). -/
def segLoop (dist : Coord → Coord → ℚ) (sp : ℚ) (fuel : ℕ) :
    Coord → List Coord → DiscState → Option DiscState
  | _, [], s => some s
  | prev, cur :: rest, s =>
    let segLen := dist prev cur
    match whileLoop sp prev cur segLen fuel { s with accumulator := s.accumulator + segLen } with
    | none => none
    | some s2 =>
      segLoop dist sp fuel cur rest
        { s2 with
          newCoords := s2.newCoords ++ [cur]
          stopIndices := s2.stopIndices ++ [rest.isEmpty] }

/-- The discretization phase of `make()`: the local-variable setup, the
segment loop, the final leftover hop `(accumulator - (nextStop -
spacing/1000)) * 1000`, and the conditional triple reversal. Returns
(stopIndices, hops, nStops, newGeometry coordinates). -/
def TripPattern.disc (dist : Coord → Coord → ℚ) (fuel : ℕ) (tp : TripPattern) :
    Option (List Bool × List ℚ × ℕ × List Coord) :=
  match tp.geometry with
  | [] => none
  | c0 :: rest =>
    (segLoop dist tp.spacing fuel c0 rest
        { accumulator := 0, nextStop := tp.spacing / 1000, stopIndices := [true]
          nStops := 2, hops := [], newCoords := [c0] }).map fun s =>
      let hops := s.hops ++ [(s.accumulator - (s.nextStop - tp.spacing / 1000)) * 1000]
      if tp.reversed then
        (s.stopIndices.reverse, hops.reverse, s.nStops, s.newCoords.reverse)
      else
        (s.stopIndices, hops, s.nStops, s.newCoords)

/-- The `make()` method: discretize, then build one timetable per
attached window (dwell array of length `nStops`, hop times
`(v / 1000) / speed * 3600`, day mask Monday..Sunday), and assemble the
document, swapping each coordinate to (lat, lon) for the encoder. -/
def TripPattern.make (dist : Coord → Coord → ℚ) (fuel : ℕ) (tp : TripPattern) :
    Option AddTripPatternDoc :=
  (TripPattern.disc dist fuel tp).map fun x =>
    { type := "add-trip-pattern"
      name := tp.name
      stops := x.1
      timetables := tp.windows.map fun p =>
        { startTime := p.startTimeGet
          endTime := p.endTimeGet
          headwaySecs := p.headway
          frequency := true
          dwellTimes := List.replicate x.2.2.1 p.dwell
          hopTimes := x.2.1.map fun v => v / 1000 / p.speed * 3600
          days := [p.mon, p.tue, p.wed, p.thurs, p.fri, p.sat, p.sun] }
      geometry := x.2.2.2.map fun c => (c.2, c.1) }

/-- State-passing form of the `make()` method call. The body of `make()`
contains no assignment to any field of `this` (it copies the geometry
into a fresh local `newGeometry` and mutates only locals), so the
builder state after the call is the builder state before it. -/
def TripPattern.makeS (dist : Coord → Coord → ℚ) (fuel : ℕ) (tp : TripPattern) :
    Option AddTripPatternDoc × TripPattern :=
  (TripPattern.make dist fuel tp, tp)

/-- Length of the polyline from `prev` through the listed coordinates,
as the sum of the pairwise distances `make()` accumulates. -/
def pathLen (dist : Coord → Coord → ℚ) : Coord → List Coord → ℚ
  | _, [] => 0
  | prev, c :: rest => dist prev c + pathLen dist c rest

/-- Total length of a geometry (0 when it has fewer than two vertices). -/
def totalLen (dist : Coord → Coord → ℚ) : List Coord → ℚ
  | [] => 0
  | c0 :: rest => pathLen dist c0 rest

/-- The RemoveTrip builder state. -/
structure RemoveTrip where
  agencyId : Option String
  routeId : Option (List String)
  tripId : Option (List String)
  routeType : Option (List ℤ)
deriving DecidableEq

/-- The document produced by `RemoveTrip.make()`. -/
structure RemoveTripDoc where
  type : String
  agencyId : Option String
  routeId : Option (List String)
  tripId : Option (List String)
  routeType : Option (List ℤ)
deriving DecidableEq

/-- The RemoveTrip constructor: every filter field starts null. -/
def RemoveTrip.new : RemoveTrip :=
  { agencyId := none, routeId := none, tripId := none, routeType := none }

/-- The `addRoute(route)` method: lazily turns null into a one-element
list, otherwise appends. -/
def RemoveTrip.addRoute (r : RemoveTrip) (route : String) : RemoveTrip :=
  { r with routeId := match r.routeId with
      | none => some [route]
      | some l => some (l ++ [route]) }

/-- The `addTrip(trip)` method. -/
def RemoveTrip.addTrip (r : RemoveTrip) (trip : String) : RemoveTrip :=
  { r with tripId := match r.tripId with
      | none => some [trip]
      | some l => some (l ++ [trip]) }

/-- The `addType(type)` method. -/
def RemoveTrip.addType (r : RemoveTrip) (ty : ℤ) : RemoveTrip :=
  { r with routeType := match r.routeType with
      | none => some [ty]
      | some l => some (l ++ [ty]) }

/-- The `make()` method of RemoveTrip. -/
def RemoveTrip.make (r : RemoveTrip) : RemoveTripDoc :=
  { type := "remove-trip", agencyId := r.agencyId, routeId := r.routeId
    tripId := r.tripId, routeType := r.routeType }

/-- The ConvertToFrequency builder state: its `_routeId` starts as an
empty list, never null. -/
structure ConvertToFrequency where
  routeId : List String
  windowStart : ℚ
  windowEnd : ℚ
  groupBy : String
deriving DecidableEq

/-- The document produced by `ConvertToFrequency.make()`. -/
structure ConvertToFrequencyDoc where
  type : String
  windowStart : ℚ
  windowEnd : ℚ
  groupBy : String
  routeId : List String
deriving DecidableEq

/-- The ConvertToFrequency constructor. -/
def ConvertToFrequency.new : ConvertToFrequency :=
  { routeId := [], windowStart := 0, windowEnd := 24 * 3600, groupBy := "ROUTE_DIRECTION" }

/-- The `addRoute(route)` method of ConvertToFrequency: plain append. -/
def ConvertToFrequency.addRoute (c : ConvertToFrequency) (route : String) : ConvertToFrequency :=
  { c with routeId := c.routeId ++ [route] }

/-- The `make()` method of ConvertToFrequency. -/
def ConvertToFrequency.make (c : ConvertToFrequency) : ConvertToFrequencyDoc :=
  { type := "convert-to-frequency", windowStart := c.windowStart
    windowEnd := c.windowEnd, groupBy := c.groupBy, routeId := c.routeId }

/-- The AdjustHeadway builder state. -/
structure AdjustHeadway where
  agencyId : Option String
  routeId : Option (List String)
  tripId : Option (List String)
  routeType : Option (List ℤ)
  headway : ℚ
deriving DecidableEq

/-- The document produced by `AdjustHeadway.make()`. -/
structure AdjustHeadwayDoc where
  type : String
  agencyId : Option String
  routeId : Option (List String)
  tripId : Option (List String)
  routeType : Option (List ℤ)
  headway : ℚ
deriving DecidableEq

/-- The AdjustHeadway constructor: filters null, `_headway` 600. -/
def AdjustHeadway.new : AdjustHeadway :=
  { agencyId := none, routeId := none, tripId := none, routeType := none, headway := 600 }

/-- The `headway(headway)` setter of AdjustHeadway. -/
def AdjustHeadway.headwayCall (a : AdjustHeadway) (v : ℚ) : AdjustHeadway :=
  { a with headway := v }

/-- The `make()` method of AdjustHeadway. -/
def AdjustHeadway.make (a : AdjustHeadway) : AdjustHeadwayDoc :=
  { type := "adjust-headway", agencyId := a.agencyId, routeId := a.routeId
    tripId := a.tripId, routeType := a.routeType, headway := a.headway }

/-- Computable stand-in for the external great-circle distance function
(turf-distance is an external collaborator per the spec); every theorem
is parameterized over the distance function, and witnesses instantiate
it with this taxicab distance. -/
def sampleDist (a b : Coord) : ℚ := |b.1 - a.1| + |b.2 - a.2|

/-- Concrete builder used by witnesses: a 1 km straight line (under
`sampleDist`) with 400 m stop spacing and one default time window. -/
def exTp : TripPattern :=
  { geometry := [((0 : ℚ), (0 : ℚ)), ((0 : ℚ), (1 : ℚ))], spacing := 400
    windows := [TimeWindow.new], name := "New trip pattern", reversed := false }

/-- The document `exTp.make sampleDist 5` produces: two interpolated
stops at 400 m and 800 m, hops 400/400/200 m, hop times 96/96/48 s at
15 km/h. -/
def exDoc : AddTripPatternDoc :=
  { type := "add-trip-pattern"
    name := "New trip pattern"
    stops := [true, true, true, true]
    timetables := [{ startTime := 0, endTime := 86399, headwaySecs := 600, frequency := true
                     dwellTimes := [0, 0, 0, 0], hopTimes := [96, 96, 48]
                     days := [true, true, true, true, true, true, true] }]
    geometry := [((0 : ℚ), (0 : ℚ)), ((2/5 : ℚ), (0 : ℚ)), ((4/5 : ℚ), (0 : ℚ)), ((1 : ℚ), (0 : ℚ))] }

/-- A degenerate builder: one-point geometry. -/
def onePointTp : TripPattern :=
  { geometry := [((0 : ℚ), (0 : ℚ))], spacing := 500
    windows := [], name := "New trip pattern", reversed := false }

/-- Builder used by the name-getter witness. -/
def tpN : TripPattern :=
  { geometry := [((0 : ℚ), (0 : ℚ)), ((0 : ℚ), (1 : ℚ))], spacing := 2000
    windows := [], name := "Base", reversed := false }

/-- The document `(tpN.nameCall (some "Oak")).1.make sampleDist 1`
produces. -/
def docN : AddTripPatternDoc :=
  { type := "add-trip-pattern", name := "Oak", stops := [true, true]
    timetables := [], geometry := [((0 : ℚ), (0 : ℚ)), ((1 : ℚ), (0 : ℚ))] }

/-- Master lemma for the inner while loop: when it completes, it has
appended some number `k` of interpolated stops, each contributing a true
stop marker and a hop of one spacing, advancing the next-stop threshold
accordingly and leaving the accumulator untouched. -/
lemma whileLoop_spec (sp : ℚ) (a b : Coord) (L : ℚ) :
    ∀ (fuel : ℕ) (s s' : DiscState), whileLoop sp a b L fuel s = some s' →
    ∃ k : ℕ,
      s'.accumulator = s.accumulator ∧
      s'.nextStop = s.nextStop + (k : ℚ) * (sp / 1000) ∧
      s'.stopIndices = s.stopIndices ++ List.replicate k true ∧
      s'.nStops = s.nStops + k ∧
      s'.hops = s.hops ++ List.replicate k sp ∧
      s'.newCoords.length = s.newCoords.length + k := by
  intro fuel
  induction fuel with
  | zero =>
    intro s s' h
    by_cases hc : s.accumulator > s.nextStop
    · simp [whileLoop, hc] at h
    · simp [whileLoop, hc] at h
      refine ⟨0, ?_⟩
      simp [← h]
  | succ n ih =>
    intro s s' h
    by_cases hc : s.accumulator > s.nextStop
    · simp only [whileLoop, if_pos hc] at h
      obtain ⟨k, h1, h2, h3, h4, h5, h6⟩ := ih _ _ h
      refine ⟨k + 1, ?_, ?_, ?_, ?_, ?_, ?_⟩
      · simpa using h1
      · simp only at h2
        rw [h2]
        push_cast
        ring
      · simp only at h3
        rw [h3, List.append_assoc, List.singleton_append, ← List.replicate_succ]
      · simp only at h4
        omega
      · simp only at h5
        rw [h5, List.append_assoc, List.singleton_append, ← List.replicate_succ]
      · simp only [List.length_append] at h6
        simp [h6]
        omega
    · simp only [whileLoop, if_neg hc] at h
      refine ⟨0, ?_⟩
      simp [← Option.some_inj.mp h]

/-- Master lemma for the segment loop: starting from a nonempty list of
remaining vertices, it adds the walked path length to the accumulator,
inserts `K` interpolated stops (each one hop of one spacing), appends one
vertex per remaining coordinate, and ends the stop-marker list with the
final vertex marked true. -/
lemma segLoop_spec (dist : Coord → Coord → ℚ) (sp : ℚ) (fuel : ℕ) :
    ∀ (rest : List Coord) (prev : Coord) (s s' : DiscState), rest ≠ [] →
    segLoop dist sp fuel prev rest s = some s' →
    ∃ (K : ℕ) (t : List Bool),
      s'.accumulator = s.accumulator + pathLen dist prev rest ∧
      s'.nextStop = s.nextStop + (K : ℚ) * (sp / 1000) ∧
      s'.stopIndices = s.stopIndices ++ t ++ [true] ∧
      t.count true = K ∧
      s'.nStops = s.nStops + K ∧
      s'.hops = s.hops ++ List.replicate K sp ∧
      s'.newCoords.length = s.newCoords.length + K + rest.length := by
  intro rest
  induction rest with
  | nil => intro prev s s' hne; exact absurd rfl hne
  | cons cur rest' ih =>
    intro prev s s' _ h
    simp only [segLoop] at h
    rcases hwl : whileLoop sp prev cur (dist prev cur) fuel
        { s with accumulator := s.accumulator + dist prev cur } with _ | s2
    · rw [hwl] at h
      simp at h
    · rw [hwl] at h
      obtain ⟨k, w1, w2, w3, w4, w5, w6⟩ := whileLoop_spec _ _ _ _ _ _ _ hwl
      simp only at w1 w2 w3 w4 w5 w6
      rcases rest' with _ | ⟨c2, cs⟩
      · simp only [segLoop, List.isEmpty_nil, Option.some_inj] at h
        refine ⟨k, List.replicate k true, ?_, ?_, ?_, ?_, ?_, ?_, ?_⟩
        · rw [← h]
          simp [w1, pathLen]
        · rw [← h]
          simpa using w2
        · rw [← h]
          simp [w3, List.append_assoc]
        · simp [List.count_replicate]
        · rw [← h]
          simpa using w4
        · rw [← h]
          simpa using w5
        · rw [← h]
          simp [w6]
      · simp only [List.isEmpty_cons] at h
        obtain ⟨K2, t2, v1, v2, v3, v4, v5, v6, v7⟩ := ih cur _ s' (List.cons_ne_nil _ _) h
        simp only at v1 v2 v3 v4 v5 v6 v7
        refine ⟨k + K2, List.replicate k true ++ [false] ++ t2, ?_, ?_, ?_, ?_, ?_, ?_, ?_⟩
        · rw [v1, w1]
          simp [pathLen]
          ring
        · rw [v2, w2]
          push_cast
          ring
        · rw [v3, w3]
          simp [List.append_assoc]
        · simp [List.count_append, List.count_replicate, v4]
        · rw [v5, w4]
          omega
        · rw [v6, w5, List.append_assoc, ← List.replicate_add]
        · rw [v7]
          simp [w6, List.length_append]
          omega

/-- Spec of the discretization phase on a geometry with at least two
vertices: the stop markers carry one more true than there are hops, the
stop count `nStops` matches the true count, the first and last markers
are true, and the hops sum exactly to the geometry length in meters. -/
lemma disc_spec (dist : Coord → Coord → ℚ) (fuel : ℕ) (tp : TripPattern)
    (stops : List Bool) (hops : List ℚ) (n : ℕ) (cs : List Coord)
    (hg : 2 ≤ tp.geometry.length)
    (h : TripPattern.disc dist fuel tp = some (stops, hops, n, cs)) :
    stops.count true = hops.length + 1 ∧
    n = stops.count true ∧
    stops.head? = some true ∧
    stops.getLast? = some true ∧
    hops.sum = 1000 * totalLen dist tp.geometry := by
  rcases hE : tp.geometry with _ | ⟨c0, rest⟩
  · rw [hE] at hg
    simp at hg
  rcases rest with _ | ⟨c1, rest'⟩
  · rw [hE] at hg
    simp at hg
  simp only [TripPattern.disc, hE] at h
  obtain ⟨s', hseg, hf⟩ := Option.map_eq_some'.mp h
  obtain ⟨K, t, f1, f2, f3, f4, f5, f6, f7⟩ :=
    segLoop_spec dist tp.spacing fuel (c1 :: rest') c0 _ s' (List.cons_ne_nil _ _) hseg
  simp only at f1 f2 f3 f5 f6
  have hcount : s'.stopIndices.count true = K + 2 := by
    rw [f3]
    simp [List.count_append, f4]
  have hlen :
      (s'.hops ++ [(s'.accumulator - (s'.nextStop - tp.spacing / 1000)) * 1000]).length
        = K + 1 := by
    simp [f6]
  have hsum :
      (s'.hops ++ [(s'.accumulator - (s'.nextStop - tp.spacing / 1000)) * 1000]).sum
        = 1000 * pathLen dist c0 (c1 :: rest') := by
    simp [f6, List.sum_append, List.sum_replicate, nsmul_eq_mul, f1, f2]
    ring
  have hhead : s'.stopIndices.head? = some true := by
    rw [f3]
    simp
  have hlast : s'.stopIndices.getLast? = some true := by
    rw [f3]
    exact List.getLast?_concat _
  have hnst : s'.nStops = K + 2 := by
    rw [f5]
    omega
  rcases hr : tp.reversed
  · rw [hr] at hf
    simp only [if_neg Bool.false_ne_true, Prod.mk.injEq] at hf
    obtain ⟨h1, h2, h3, h4⟩ := hf
    subst h1 h2 h3
    refine ⟨?_, ?_, ?_, ?_, ?_⟩
    · rw [hcount, hlen]
    · rw [hnst, hcount]
    · exact hhead
    · exact hlast
    · rw [hsum]
      simp [totalLen]
  · rw [hr] at hf
    rw [if_pos rfl] at hf
    simp only [Prod.mk.injEq] at hf
    obtain ⟨h1, h2, h3, h4⟩ := hf
    subst h1 h2 h3
    refine ⟨?_, ?_, ?_, ?_, ?_⟩
    · rw [List.count_reverse, List.length_reverse, hcount, hlen]
    · rw [List.count_reverse, hnst, hcount]
    · rw [List.head?_reverse]
      exact hlast
    · rw [List.getLast?_reverse]
      exact hhead
    · rw [List.sum_reverse, hsum]
      simp [totalLen]

/-- C1: for every geometry with at least 2 coordinates and every spacing
s > 0, the document produced by `TripPattern.make()` has: true-count of
`stops` equal to the number of hop distances plus 1, every timetable's
`hopTimes` of that hop-distance length, and every timetable's
`dwellTimes` of length equal to the true-count of `stops`. -/
theorem tripPattern_make_stop_hop_dwell_lengths
    (dist : Coord → Coord → ℚ) (fuel : ℕ) (tp : TripPattern)
    (stops : List Bool) (hops : List ℚ) (n : ℕ) (cs : List Coord) (doc : AddTripPatternDoc)
    (hg : 2 ≤ tp.geometry.length) (hsp : 0 < tp.spacing)
    (hdisc : TripPattern.disc dist fuel tp = some (stops, hops, n, cs))
    (hmake : TripPattern.make dist fuel tp = some doc) :
    doc.stops.count true = hops.length + 1 ∧
    ∀ t ∈ doc.timetables, t.hopTimes.length = hops.length ∧
      t.dwellTimes.length = doc.stops.count true := by
  obtain ⟨hc, hn, _, _, _⟩ := disc_spec dist fuel tp stops hops n cs hg hdisc
  rw [TripPattern.make, hdisc] at hmake
  simp only [Option.map_some', Option.some_inj] at hmake
  subst hmake
  constructor
  · simpa using hc
  · intro t ht
    simp only [List.mem_map] at ht
    obtain ⟨p, hp, rfl⟩ := ht
    constructor
    · simp
    · simpa using hn

/-- C2: for every geometry with at least 2 coordinates and every spacing
s > 0, the hop distances produced by discretization sum exactly (in the
exact rational arithmetic of the model) to the total geometry length in
meters. -/
theorem tripPattern_hops_sum_total_length
    (dist : Coord → Coord → ℚ) (fuel : ℕ) (tp : TripPattern)
    (stops : List Bool) (hops : List ℚ) (n : ℕ) (cs : List Coord)
    (hg : 2 ≤ tp.geometry.length) (hsp : 0 < tp.spacing)
    (hdisc : TripPattern.disc dist fuel tp = some (stops, hops, n, cs)) :
    hops.sum = 1000 * totalLen dist tp.geometry :=
  (disc_spec dist fuel tp stops hops n cs hg hdisc).2.2.2.2

/-- C7: for every geometry with at least 2 coordinates and every spacing
s > 0, the first and last entries of the `stops` sequence of the
document produced by `TripPattern.make()` are both true. -/
theorem tripPattern_stops_first_last
    (dist : Coord → Coord → ℚ) (fuel : ℕ) (tp : TripPattern) (doc : AddTripPatternDoc)
    (hg : 2 ≤ tp.geometry.length) (hsp : 0 < tp.spacing)
    (hmake : TripPattern.make dist fuel tp = some doc) :
    doc.stops.head? = some true ∧ doc.stops.getLast? = some true := by
  rw [TripPattern.make] at hmake
  obtain ⟨x, hx, hfx⟩ := Option.map_eq_some'.mp hmake
  obtain ⟨stops, hops, n, cs⟩ := x
  obtain ⟨_, _, hh, hl, _⟩ := disc_spec dist fuel tp stops hops n cs hg hx
  subst hfx
  exact ⟨by simpa using hh, by simpa using hl⟩

/-- C4: reversing a TripPattern twice and then finalizing yields the same
document as finalizing without any reverse call. -/
theorem tripPattern_reverse_involution
    (dist : Coord → Coord → ℚ) (fuel : ℕ) (tp : TripPattern) :
    TripPattern.make dist fuel (TripPattern.reverse (TripPattern.reverse tp))
      = TripPattern.make dist fuel tp := by
  have h : TripPattern.reverse (TripPattern.reverse tp) = tp := by
    cases tp
    simp [TripPattern.reverse]
  rw [h]

/-- C5: the `make()` call is side-effect-free on the builder (every field
of the post-call state equals the pre-call field) and calling it twice
in a row from the same state returns equal documents. -/
theorem tripPattern_make_pure
    (dist : Coord → Coord → ℚ) (fuel : ℕ) (tp : TripPattern) :
    ((TripPattern.makeS dist fuel tp).2.geometry = tp.geometry ∧
     (TripPattern.makeS dist fuel tp).2.spacing = tp.spacing ∧
     (TripPattern.makeS dist fuel tp).2.windows = tp.windows ∧
     (TripPattern.makeS dist fuel tp).2.name = tp.name ∧
     (TripPattern.makeS dist fuel tp).2.reversed = tp.reversed) ∧
    (TripPattern.makeS dist fuel ((TripPattern.makeS dist fuel tp).2)).1
      = (TripPattern.makeS dist fuel tp).1 :=
  ⟨⟨rfl, rfl, rfl, rfl, rfl⟩, rfl⟩

/-- C6 counterexample: setting startTime to 90000 on a fresh TimeWindow
is out of range and does throw, but the thrown value is the string
primitive of the source, which is not a RangeError object — refuting the
claim that the setters raise a RangeError when the value is out of
range. -/
theorem timeWindow_range_error_counterexample :
    (TimeWindow.new.startTimeCall 90000).2 = some (Thrown.jsString startTimeMsg) ∧
    Thrown.isRangeError (Thrown.jsString startTimeMsg) = false := by
  constructor
  · norm_num [TimeWindow.startTimeCall]
  · rfl

/-- C6 amended: the TimeWindow (ServicePeriod) time setters throw exactly
when the value is out of range — startTime outside [0, 86400], endTime
outside [0, 172800] — with the thrown value being a string message (never
a RangeError object) and the stored value left unchanged on a throw; in
particular startTime 90000 throws while startTime 43200 succeeds and the
getter then returns 43200. -/
theorem timeWindow_time_setter_ranges (w : TimeWindow) (v : ℚ) :
    ((w.startTimeCall v).2.isSome ↔ (v < 0 ∨ 86400 < v)) ∧
    ((w.startTimeCall v).2.isSome → (w.startTimeCall v).1 = w) ∧
    ((w.startTimeCall v).2.isSome →
      (w.startTimeCall v).2 = some (Thrown.jsString startTimeMsg)) ∧
    ((w.endTimeCall v).2.isSome ↔ (v < 0 ∨ 172800 < v)) ∧
    ((w.endTimeCall v).2.isSome → (w.endTimeCall v).1 = w) ∧
    ((w.endTimeCall v).2.isSome →
      (w.endTimeCall v).2 = some (Thrown.jsString endTimeMsg)) ∧
    (w.startTimeCall v).2.map Thrown.isRangeError ≠ some true ∧
    (w.endTimeCall v).2.map Thrown.isRangeError ≠ some true ∧
    (w.startTimeCall 90000).2.isSome ∧
    ((w.startTimeCall 43200).2 = none ∧ (w.startTimeCall 43200).1.startTimeGet = 43200) := by
  refine ⟨?_, ?_, ?_, ?_, ?_, ?_, ?_, ?_, ?_, ?_, ?_⟩
  · by_cases hc : v < 0 ∨ v > 24 * 3600
    · simp [TimeWindow.startTimeCall, hc]
      norm_num at hc ⊢
      exact hc
    · simp [TimeWindow.startTimeCall, hc]
      norm_num at hc ⊢
      exact hc
  · intro hs
    by_cases hc : v < 0 ∨ v > 24 * 3600
    · simp [TimeWindow.startTimeCall, hc]
    · simp [TimeWindow.startTimeCall, hc] at hs
  · intro hs
    by_cases hc : v < 0 ∨ v > 24 * 3600
    · simp [TimeWindow.startTimeCall, hc]
    · simp [TimeWindow.startTimeCall, hc] at hs
  · by_cases hc : v < 0 ∨ v > 48 * 3600
    · simp [TimeWindow.endTimeCall, hc]
      norm_num at hc ⊢
      exact hc
    · simp [TimeWindow.endTimeCall, hc]
      norm_num at hc ⊢
      exact hc
  · intro hs
    by_cases hc : v < 0 ∨ v > 48 * 3600
    · simp [TimeWindow.endTimeCall, hc]
    · simp [TimeWindow.endTimeCall, hc] at hs
  · intro hs
    by_cases hc : v < 0 ∨ v > 48 * 3600
    · simp [TimeWindow.endTimeCall, hc]
    · simp [TimeWindow.endTimeCall, hc] at hs
  · by_cases hc : v < 0 ∨ v > 24 * 3600
    · simp [TimeWindow.startTimeCall, hc, Thrown.isRangeError]
    · simp [TimeWindow.startTimeCall, hc]
  · by_cases hc : v < 0 ∨ v > 48 * 3600
    · simp [TimeWindow.endTimeCall, hc, Thrown.isRangeError]
    · simp [TimeWindow.endTimeCall, hc]
  · norm_num [TimeWindow.startTimeCall]
  · norm_num [TimeWindow.startTimeCall]
  · norm_num [TimeWindow.startTimeCall, TimeWindow.startTimeGet]

/-- C8: a fresh RemoveTrip emits null for routeId, tripId and routeType,
while a fresh ConvertToFrequency emits the empty list (not null) for
routeId. -/
theorem filter_null_vs_empty_defaults :
    (RemoveTrip.new.make.routeId = none ∧ RemoveTrip.new.make.tripId = none ∧
     RemoveTrip.new.make.routeType = none) ∧
    ConvertToFrequency.new.make.routeId = [] :=
  ⟨⟨rfl, rfl, rfl⟩, rfl⟩

/-- C9: after storing a name with `name(s)`, calling `name()` with no
argument returns undefined (the parameter itself) rather than the stored
name, yet the stored name is the `name` field of any document `make()`
produces. -/
theorem tripPattern_name_getter_undefined
    (tp : TripPattern) (s : String) (dist : Coord → Coord → ℚ) (fuel : ℕ)
    (doc : AddTripPatternDoc) :
    (((tp.nameCall (some s)).1.nameCall none).2 = NameRet.value none) ∧
    NameRet.value none ≠ NameRet.value (some s) ∧
    (TripPattern.make dist fuel (tp.nameCall (some s)).1 = some doc → doc.name = s) := by
  refine ⟨rfl, by simp, fun h => ?_⟩
  rw [TripPattern.make] at h
  obtain ⟨x, _, hfx⟩ := Option.map_eq_some'.mp h
  rw [← hfx]
  exact rfl

/-- C10: a fresh AdjustHeadway emits exactly the document with type
adjust-headway, all filters null, and headway 600 even though the
headway setter was never called. -/
theorem adjustHeadway_default_doc :
    AdjustHeadway.new.make
      = { type := "adjust-headway", agencyId := none, routeId := none, tripId := none
          routeType := none, headway := 600 } :=
  rfl

/-- C3 counterexample: on the degenerate one-point geometry (with
positive spacing), `make()` returns a document rather than raising any
error, refuting the claim that every degenerate input is rejected at
finalization time. -/
theorem make_degenerate_counterexample :
    TripPattern.make sampleDist 1 onePointTp
      = some { type := "add-trip-pattern", name := "New trip pattern", stops := [true]
               timetables := [], geometry := [((0 : ℚ), (0 : ℚ))] } := by
  norm_num [TripPattern.make, TripPattern.disc, onePointTp, segLoop, whileLoop, sampleDist]

/-- C3 amended: `make()` performs no validation of degenerate inputs.
For every one-point geometry it completes and returns a document whose
stops sequence is the single entry true, instead of raising. -/
theorem make_degenerate_unvalidated
    (dist : Coord → Coord → ℚ) (fuel : ℕ) (tp : TripPattern) (c : Coord)
    (h : tp.geometry = [c]) :
    ∃ doc, TripPattern.make dist fuel tp = some doc ∧ doc.stops = [true] := by
  simp only [TripPattern.make, TripPattern.disc, h, segLoop, Option.map_some']
  rcases tp.reversed
  · simp
  · simp

/-- C1 witness: the length facts evaluated on the concrete 1 km line
with 400 m spacing. -/
theorem tripPattern_make_stop_hop_dwell_lengths_witness :
    2 ≤ exTp.geometry.length ∧ (0 : ℚ) < exTp.spacing ∧
    TripPattern.disc sampleDist 5 exTp
      = some ([true, true, true, true], [400, 400, 200], 4,
          [((0 : ℚ), (0 : ℚ)), ((0 : ℚ), (2/5 : ℚ)), ((0 : ℚ), (4/5 : ℚ)), ((0 : ℚ), (1 : ℚ))]) ∧
    TripPattern.make sampleDist 5 exTp = some exDoc ∧
    (exDoc.stops.count true = ([400, 400, 200] : List ℚ).length + 1 ∧
     ∀ t ∈ exDoc.timetables, t.hopTimes.length = ([400, 400, 200] : List ℚ).length ∧
       t.dwellTimes.length = exDoc.stops.count true) := by
  have hg : 2 ≤ exTp.geometry.length := by norm_num [exTp]
  have hsp : (0 : ℚ) < exTp.spacing := by norm_num [exTp]
  have hdisc : TripPattern.disc sampleDist 5 exTp
      = some ([true, true, true, true], [400, 400, 200], 4,
          [((0 : ℚ), (0 : ℚ)), ((0 : ℚ), (2/5 : ℚ)), ((0 : ℚ), (4/5 : ℚ)), ((0 : ℚ), (1 : ℚ))]) := by
    norm_num [TripPattern.disc, exTp, segLoop, whileLoop, sampleDist]
  have hmake : TripPattern.make sampleDist 5 exTp = some exDoc := by
    norm_num [TripPattern.make, TripPattern.disc, exTp, exDoc, segLoop, whileLoop, sampleDist,
      TimeWindow.new, TimeWindow.startTimeGet, TimeWindow.endTimeGet, List.replicate]
  exact ⟨hg, hsp, hdisc, hmake,
    tripPattern_make_stop_hop_dwell_lengths sampleDist 5 exTp _ _ _ _ exDoc hg hsp hdisc hmake⟩

/-- C2 witness: the hop distances 400 + 400 + 200 sum to 1000 meters,
the length of the concrete 1 km line. -/
theorem tripPattern_hops_sum_total_length_witness :
    2 ≤ exTp.geometry.length ∧ (0 : ℚ) < exTp.spacing ∧
    TripPattern.disc sampleDist 5 exTp
      = some ([true, true, true, true], [400, 400, 200], 4,
          [((0 : ℚ), (0 : ℚ)), ((0 : ℚ), (2/5 : ℚ)), ((0 : ℚ), (4/5 : ℚ)), ((0 : ℚ), (1 : ℚ))]) ∧
    ([400, 400, 200] : List ℚ).sum = 1000 * totalLen sampleDist exTp.geometry := by
  have hg : 2 ≤ exTp.geometry.length := by norm_num [exTp]
  have hsp : (0 : ℚ) < exTp.spacing := by norm_num [exTp]
  have hdisc : TripPattern.disc sampleDist 5 exTp
      = some ([true, true, true, true], [400, 400, 200], 4,
          [((0 : ℚ), (0 : ℚ)), ((0 : ℚ), (2/5 : ℚ)), ((0 : ℚ), (4/5 : ℚ)), ((0 : ℚ), (1 : ℚ))]) := by
    norm_num [TripPattern.disc, exTp, segLoop, whileLoop, sampleDist]
  exact ⟨hg, hsp, hdisc,
    tripPattern_hops_sum_total_length sampleDist 5 exTp _ _ _ _ hg hsp hdisc⟩

/-- C7 witness: first and last stop markers of the concrete document. -/
theorem tripPattern_stops_first_last_witness :
    2 ≤ exTp.geometry.length ∧ (0 : ℚ) < exTp.spacing ∧
    TripPattern.make sampleDist 5 exTp = some exDoc ∧
    (exDoc.stops.head? = some true ∧ exDoc.stops.getLast? = some true) := by
  have hg : 2 ≤ exTp.geometry.length := by norm_num [exTp]
  have hsp : (0 : ℚ) < exTp.spacing := by norm_num [exTp]
  have hmake : TripPattern.make sampleDist 5 exTp = some exDoc := by
    norm_num [TripPattern.make, TripPattern.disc, exTp, exDoc, segLoop, whileLoop, sampleDist,
      TimeWindow.new, TimeWindow.startTimeGet, TimeWindow.endTimeGet, List.replicate]
  exact ⟨hg, hsp, hmake, tripPattern_stops_first_last sampleDist 5 exTp exDoc hg hsp hmake⟩

/-- C6 witness: the two concrete setter calls of the claim evaluated on
a fresh TimeWindow, including the thrown string value of the failing
call. -/
theorem timeWindow_time_setter_ranges_witness :
    (TimeWindow.new.startTimeCall 90000).2.isSome ∧
    (TimeWindow.new.startTimeCall 90000).1 = TimeWindow.new ∧
    (TimeWindow.new.startTimeCall 90000).2 = some (Thrown.jsString startTimeMsg) ∧
    (TimeWindow.new.startTimeCall 43200).2 = none ∧
    (TimeWindow.new.startTimeCall 43200).1.startTimeGet = 43200 := by
  have h := timeWindow_time_setter_ranges TimeWindow.new 90000
  have h2 := timeWindow_time_setter_ranges TimeWindow.new 43200
  have hs : (TimeWindow.new.startTimeCall 90000).2.isSome := h.2.2.2.2.2.2.2.2.1
  exact ⟨hs, h.2.1 hs, h.2.2.1 hs, h2.2.2.2.2.2.2.2.2.2.1, h2.2.2.2.2.2.2.2.2.2.2⟩

/-- C9 witness: the concrete builder tpN with stored name Oak. -/
theorem tripPattern_name_getter_undefined_witness :
    (((tpN.nameCall (some "Oak")).1.nameCall none).2 = NameRet.value none) ∧
    docN.name = "Oak" := by
  have hmake : TripPattern.make sampleDist 1 (tpN.nameCall (some "Oak")).1 = some docN := by
    norm_num [TripPattern.make, TripPattern.disc, tpN, docN, TripPattern.nameCall,
      segLoop, whileLoop, sampleDist]
  exact ⟨(tripPattern_name_getter_undefined tpN "Oak" sampleDist 1 docN).1,
    (tripPattern_name_getter_undefined tpN "Oak" sampleDist 1 docN).2.2 hmake⟩

/-- C3 amended witness: the one-point builder evaluated concretely. -/
theorem make_degenerate_unvalidated_witness :
    onePointTp.geometry = [((0 : ℚ), (0 : ℚ))] ∧
    ∃ doc, TripPattern.make sampleDist 1 onePointTp = some doc ∧ doc.stops = [true] :=
  ⟨rfl, make_degenerate_unvalidated sampleDist 1 onePointTp _ rfl⟩
